import Mathlib

/-!
Verification of the Youtube-Backend user-account service: a shallow Lean
embedding of the session-lifecycle code (user controller, auth middleware,
user model, cloudinary/asyncHandler utilities) and proofs about it.

External collaborators (jsonwebtoken, bcryptjs, mongoose, cloudinary, the
file system) are modelled by explicit executable functions whose behaviour
matches the contracts the code relies on; every handler is a pure function
from its request and the explicit database / file-system state to an
`Except` of the JS exception it would throw or the HTTP response it sends.
-/

/-! ## JS string semantics -/

/-- The whitespace that JS `String.prototype.trim` strips (ASCII fragment). -/
def isJsSpace (c : Char) : Bool :=
  c = ' ' || c = '\t' || c = '\n' || c = '\r'

/-- JS `s.trim()`: leading and trailing whitespace removed. -/
def jsTrim (s : String) : String :=
  ⟨((s.data.dropWhile isJsSpace).reverse.dropWhile isJsSpace).reverse⟩

/-- Lower-casing of one ASCII character, as `String.prototype.toLowerCase`
acts on the ASCII range used by this backend. -/
def jsCharToLower (c : Char) : Char :=
  if 'A' ≤ c ∧ c ≤ 'Z' then Char.ofNat (c.toNat + 32) else c

/-- JS `s.toLowerCase()` on ASCII strings. -/
def jsToLower (s : String) : String :=
  ⟨s.data.map jsCharToLower⟩

/-- JS truthiness of a possibly-undefined string: `undefined` and the empty
string are falsy, every other string truthy. -/
def strTruthy : Option String → Bool
  | none => false
  | some s => if s = "" then false else true

/-! ## Token Issuer / Verifier (jsonwebtoken collaborator) -/

/-- The payload of a signed JWT. `generateAccessToken` fills all four
fields; `generateRefreshToken` signs only the id. -/
structure JwtPayload where
  _id : Nat
  email : Option String
  username : Option String
  fullName : Option String
  iat : Nat
deriving DecidableEq

/-- A JWT as the handlers see it: either the output of `jwt.sign` — which
records the payload, the signing secret and whether the token has expired
by the time it is presented — or a string that is not a JWT at all. -/
inductive Token where
  | signed (payload : JwtPayload) (secret : String) (expired : Bool)
  | garbage (s : String)
deriving DecidableEq

/-- JS truthiness of a token string: only the empty string is falsy. -/
def Token.truthy : Token → Bool
  | .garbage s => if s = "" then false else true
  | .signed _ _ _ => true

/-- `jwt.verify(token, secret)`: the payload when the signature matches
`secret` and the token has not expired, failure (a thrown
JsonWebTokenError / TokenExpiredError) otherwise. -/
def jwtVerify (t : Token) (secret : String) : Option JwtPayload :=
  match t with
  | .signed p s expired => if s = secret ∧ expired = false then some p else none
  | .garbage _ => none

/-- JS `a || b` over two possibly-undefined token strings: the left operand
when it is defined and truthy, otherwise the right operand. -/
def jsOrToken (a b : Option Token) : Option Token :=
  match a with
  | some t => if t.truthy then some t else b
  | none => b

/-- The `x = a || b; if (!x) throw` pattern the handlers use on tokens,
folded into one step: the selected token when the JS expression is truthy,
`none` when the subsequent `!x` guard would fire. -/
def jsGetToken (a b : Option Token) : Option Token :=
  match jsOrToken a b with
  | some t => if t.truthy then some t else none
  | none => none

/-- The process environment the token methods read (ACCESS_TOKEN_SECRET,
REFRESH_TOKEN_SECRET), together with the clock `now` at which the
operation runs: `jwt.sign` stamps it into the payload as the `iat` claim,
which is what makes two issuances of the same payload distinct tokens. -/
structure Config where
  accessTokenSecret : String
  refreshTokenSecret : String
  now : Nat
deriving DecidableEq

/-! ## Errors

Modelled from the spec: `utils/ApiError.js` is not among the repository
files given, only its importers are. Per spec section 7 the handlers throw
a structured error carrying a statusCode and a message, converted to a
JSON body `statusCode`/`message`/`success:false`; like its sibling
`ApiResponse` (src/src/utils/ApiResponse.js) it is an ES class constructed
with `new`. `Err.api` models `new ApiError(statusCode, message)`. The
other constructors model the plain JS runtime errors the handlers can
raise: `referenceError` for reading an identifier that is not in scope,
`typeError` for invoking a class without `new` or reading a property of
undefined, `ioError` for an `fs.unlinkSync` failure, and
`mongooseValidation` for a document failing schema validation on save. -/
inductive Err where
  | api (statusCode : Nat) (message : String)
  | referenceError (name : String)
  | typeError (message : String)
  | ioError (path : String)
  | mongooseValidation (message : String)
deriving DecidableEq

/-! ## User model (src/src/models/user.model.js) -/

/-- One document of the users collection. `password` holds the bcrypt hash
written by the pre-save hook; `refreshToken` is the single stored renewal
token, absent until a login stores one or after logout unsets it. -/
structure UserDoc where
  _id : Nat
  username : String
  email : String
  fullName : String
  password : String
  avatar : Option String
  coverImage : Option String
  refreshToken : Option Token
  watchHistory : List Nat
deriving DecidableEq

/-- `bcryptjs.hash(plain, 10)` collaborator: an injective one-way encoding
of the plaintext, prefixed like a bcrypt digest. -/
def bcryptHash (plain : String) : String :=
  "$2b$10$" ++ plain

/-- `userSchema.methods.isPasswordCorrect`: `bcryptjs.compare` of the
supplied password against the stored hash. A `none` password models the
undefined case, on which compare cannot succeed. -/
def isPasswordCorrect (supplied : Option String) (storedHash : String) : Bool :=
  match supplied with
  | some p => bcryptHash p = storedHash
  | none => false

/-- `userSchema.methods.generateAccessToken`: signs `_id`, `email`,
`username`, `fullName` with ACCESS_TOKEN_SECRET; freshly issued, so not
expired. -/
def generateAccessToken (u : UserDoc) (cfg : Config) : Token :=
  .signed { _id := u._id, email := some u.email, username := some u.username,
            fullName := some u.fullName, iat := cfg.now } cfg.accessTokenSecret false

/-- `userSchema.methods.generateRefreshToken`: signs only `_id` with
REFRESH_TOKEN_SECRET; freshly issued, so not expired. -/
def generateRefreshToken (u : UserDoc) (cfg : Config) : Token :=
  .signed { _id := u._id, email := none, username := none, fullName := none,
            iat := cfg.now } cfg.refreshTokenSecret false

/-! ## Credential store (mongoose collaborator) -/

/-- `User.findById(id)`. -/
def findById (db : List UserDoc) (id : Nat) : Option UserDoc :=
  db.find? fun u => u._id = id

/-- `User.findOne({$or: [{email}, {username}]})`; an undefined key is a
branch that matches nothing. -/
def findOneByEmailOrUsername (db : List UserDoc) (email username : Option String) :
    Option UserDoc :=
  db.find? fun u =>
    (match email with | some e => u.email = e | none => false)
    || (match username with | some un => u.username = un | none => false)

/-- `user.save(...)` on a document loaded from the store: the document with
this `_id` is replaced by the mutated one. -/
def saveUser (db : List UserDoc) (u : UserDoc) : List UserDoc :=
  db.map fun v => if v._id = u._id then u else v

/-- `User.findByIdAndUpdate(id, {$unset: {refreshToken: 1}})`. -/
def unsetRefreshToken (db : List UserDoc) (id : Nat) : List UserDoc :=
  db.map fun v => if v._id = id then { v with refreshToken := none } else v

/-- The id mongoose assigns to a newly created document: strictly larger
than every id already present. -/
def nextId (db : List UserDoc) : Nat :=
  db.foldr (fun u acc => max u._id acc) 0 + 1

/-- The projection `.select("-password -refreshToken")`: the account record
with the password and renewal-token fields excluded (the structure has no
such fields at all). -/
structure SanitizedUser where
  _id : Nat
  username : String
  email : String
  fullName : String
  avatar : Option String
  coverImage : Option String
  watchHistory : List Nat
deriving DecidableEq

/-- Strip password and refreshToken from a stored document. -/
def sanitize (u : UserDoc) : SanitizedUser :=
  { _id := u._id, username := u.username, email := u.email,
    fullName := u.fullName, avatar := u.avatar, coverImage := u.coverImage,
    watchHistory := u.watchHistory }

/-! ## HTTP response shapes -/

/-- src/src/utils/ApiResponse.js: `success` is `statusCode < 400`. -/
structure ApiResponse (α : Type) where
  statusCode : Nat
  data : α
  message : String
  success : Bool
deriving DecidableEq

/-- `new ApiResponse(statusCode, data, message)`. -/
def mkApiResponse (statusCode : Nat) (data : α) (message : String) : ApiResponse α :=
  { statusCode := statusCode, data := data, message := message,
    success := decide (statusCode < 400) }

/-- One `res.cookie(name, value, {httpOnly: true, secure: true})` call;
`value = none` models passing a JS undefined value. -/
structure SetCookie where
  name : String
  value : Option Token
  httpOnly : Bool
  secure : Bool
deriving DecidableEq

/-! ## generateAccessAndRefreshTokens (user controller) -/

/-- The token pair the helper returns as `{ accessToken, refreshToken }`. -/
structure TokenPair where
  accessToken : Token
  refreshToken : Token
deriving DecidableEq

/-- `generateAccessAndRefreshTokens(userId)`: load the user, mint both
tokens, store the refresh token on the user and save. Any failure inside
the try block — in this model, the id resolving to no user, so that the
method calls on `user` throw — is caught and rethrown as the 500
ApiError. -/
def generateAccessAndRefreshTokens (cfg : Config) (db : List UserDoc) (userId : Nat) :
    Except Err (List UserDoc × TokenPair) :=
  match findById db userId with
  | none =>
      .error (.api 500 "Something went wrong while creating access and refresh Token!")
  | some user =>
      let accessToken := generateAccessToken user cfg
      let refreshToken := generateRefreshToken user cfg
      let user' := { user with refreshToken := some refreshToken }
      .ok (saveUser db user', ⟨accessToken, refreshToken⟩)

/-! ## loginUser -/

/-- The body of a POST /login request. -/
structure LoginRequest where
  email : Option String
  username : Option String
  password : Option String

/-- The JSON data of a successful login response. `user` is the result of
the second `findById(...).select(...)`, null if that lookup failed. -/
structure LoginData where
  user : Option SanitizedUser
  accessToken : Token
  refreshToken : Token
deriving DecidableEq

/-- A successful login response: status, the two cookies, the body. -/
structure LoginHttp where
  status : Nat
  cookies : List SetCookie
  body : ApiResponse LoginData
deriving DecidableEq

/-- `loginUser`: guard that an identifier was supplied, look the user up,
check the password, mint and persist tokens, reply with cookies and the
sanitized record. On a wrong password the source runs
`throw ApiError(401, "Invalid user credentials!")` WITHOUT `new`:
invoking the ApiError class without `new` raises a TypeError, so that is
the exception this path actually produces. -/
def loginUser (cfg : Config) (db : List UserDoc) (req : LoginRequest) :
    Except Err (List UserDoc × LoginHttp) :=
  if !strTruthy req.email && !strTruthy req.username then
    .error (.api 400 "username or email is required!")
  else
    match findOneByEmailOrUsername db req.email req.username with
    | none => .error (.api 404 "user doesn't exist!")
    | some user =>
        if isPasswordCorrect req.password user.password then
          match generateAccessAndRefreshTokens cfg db user._id with
          | .error e => .error e
          | .ok (db', pair) =>
              let loggedInUser := (findById db' user._id).map sanitize
              .ok (db',
                { status := 200,
                  cookies :=
                    [⟨"accessToken", some pair.accessToken, true, true⟩,
                     ⟨"refreshToken", some pair.refreshToken, true, true⟩],
                  body := mkApiResponse 200
                    { user := loggedInUser, accessToken := pair.accessToken,
                      refreshToken := pair.refreshToken }
                    "User logged in Successfully!" })
        else
          .error (.typeError "Class constructor ApiError cannot be invoked without new")

/-! ## logoutUser -/

/-- A logout response: status, the two cleared cookies, the empty body. -/
structure LogoutHttp where
  status : Nat
  clearedCookies : List String
  body : ApiResponse Unit
deriving DecidableEq

/-- `logoutUser`: unset the stored refreshToken of the authenticated user
(`req.user._id`, supplied by verifyJWT), clear both cookies. -/
def logoutUser (db : List UserDoc) (userId : Nat) : List UserDoc × LogoutHttp :=
  (unsetRefreshToken db userId,
   { status := 200, clearedCookies := ["accessToken", "refreshToken"],
     body := mkApiResponse 200 () "user logged out!" })

/-! ## refreshAccessToken -/

/-- The refresh-token material of a POST /refresh-token request:
`req.cookies.refreshToken` and `req.body.refreshToken`. -/
structure RefreshRequest where
  cookieRefreshToken : Option Token
  bodyRefreshToken : Option Token

/-- The JSON data of a successful refresh response. Both fields are
whatever the handler destructured, hence possibly undefined. -/
structure RefreshData where
  accessToken : Option Token
  refreshToken : Option Token
deriving DecidableEq

/-- A successful refresh response. -/
structure RefreshHttp where
  status : Nat
  cookies : List SetCookie
  body : ApiResponse RefreshData
deriving DecidableEq

/-- `refreshAccessToken` as the source defines it. The handler's parameter
is named `rq`, but every statement of the body reads `req`, an identifier
bound nowhere in the module, so the very first statement
`req.cookies.refreshToken || req.body.refreshToken` raises
`ReferenceError: req is not defined` — before the try block, so nothing
catches it and no branch of the intended flow is ever reached. -/
def refreshAccessToken (cfg : Config) (db : List UserDoc) (rq : RefreshRequest) :
    Except Err (List UserDoc × RefreshHttp) :=
  .error (.referenceError "req")

/-- The statements of refreshAccessToken's body under the binding
`req := rq` — the flow the handler's own comment describes (extract,
decode, find the user, compare with the stored token, mint new tokens).
In the source this flow is unreachable (see `refreshAccessToken`); it is
embedded separately so the token-rotation logic itself can be examined.
Inside the try block every thrown ApiError is caught and rethrown as
`ApiError(401, error.message)`, so messages are preserved and the status
becomes 401; a `jwt.verify` failure surfaces with the verifier's own
message, modelled by the fixed string "jwt verification error". The
success branch destructures `{ accessToken, newRefreshToken }` from a
helper that returns `{ accessToken, refreshToken }`, so
`newRefreshToken` is undefined (`none`) in the cookie and the body even
though a fresh token was persisted. -/
def refreshAccessTokenBody (cfg : Config) (db : List UserDoc) (req : RefreshRequest) :
    Except Err (List UserDoc × RefreshHttp) :=
  match jsGetToken req.cookieRefreshToken req.bodyRefreshToken with
  | none => .error (.api 401 "Unauthorized request!")
  | some incomingRefreshToken =>
      match jwtVerify incomingRefreshToken cfg.refreshTokenSecret with
      | none => .error (.api 401 "jwt verification error")
      | some decodedToken =>
          match findById db decodedToken._id with
          | none => .error (.api 401 "Invalid refresh token!")
          | some user =>
              if some incomingRefreshToken ≠ user.refreshToken then
                .error (.api 401 "Refresh token expired or used!")
              else
                match generateAccessAndRefreshTokens cfg db user._id with
                | .error (.api _ msg) => .error (.api 401 msg)
                | .error e => .error e
                | .ok (db', pair) =>
                    let accessToken := pair.accessToken
                    let newRefreshToken : Option Token := none
                    .ok (db',
                      { status := 200,
                        cookies :=
                          [⟨"accessToken", some accessToken, true, true⟩,
                           ⟨"refreshToken", newRefreshToken, true, true⟩],
                        body := mkApiResponse 200
                          { accessToken := some accessToken,
                            refreshToken := newRefreshToken }
                          "Access token refreshed!" })

/-! ## verifyJWT (auth middleware, the Request Gate) -/

/-- The space-separated words of an `Authorization` header value:
`scheme` is word 0 (for example "Bearer"), `credential` word 1 when the
header has one — exactly what `header.split(" ")[1]` reads. -/
structure AuthHeader where
  scheme : String
  credential : Option Token

/-- What a protected request carries for the gate. -/
structure AuthRequest where
  cookieAccessToken : Option Token
  headerAuthorization : Option AuthHeader

/-- `req.cookies?.accessToken || req.header("Authorization")?.split(" ")[1]`
followed by the `if (!token)` guard. -/
def extractAccessToken (req : AuthRequest) : Option Token :=
  jsGetToken req.cookieAccessToken (req.headerAuthorization.bind fun h => h.credential)

/-- `verifyJWT`: extract the access token (cookie first), verify it against
ACCESS_TOKEN_SECRET, load the sanitized user, attach it (the `.ok` value
stands for `req.user := user; next()`). Every failure inside the try is
rethrown by the catch as a 401 ApiError with the original message
preserved; a `jwt.verify` failure carries the verifier's message,
modelled by "jwt verification error". -/
def verifyJWT (cfg : Config) (db : List UserDoc) (req : AuthRequest) :
    Except Err SanitizedUser :=
  match extractAccessToken req with
  | none => .error (.api 401 "Unauthorized Request!")
  | some token =>
      match jwtVerify token cfg.accessTokenSecret with
      | none => .error (.api 401 "jwt verification error")
      | some decodedToken =>
          match findById db decodedToken._id with
          | none => .error (.api 401 "Invalid Access Token!")
          | some user => .ok (sanitize user)

/-! ## File system and cloudinary collaborators -/

/-- `fs.unlinkSync(path)` over an explicit file-system state (the set of
existing paths): removes the file, or throws when there is none. -/
def unlinkSync (fsState : List String) (path : String) : Except Err (List String) :=
  if path ∈ fsState then .ok (fsState.erase path) else .error (.ioError path)

/-- `uploadOnCloudinary(localFilePath)` (src/src/utils/cloudinary.js).
`upload` is the `cloudinary.uploader.upload` collaborator: the public url
on success, `none` when it throws. A falsy path returns null at once.
After a successful upload the file is unlinked and the result returned;
when the upload throws, the catch block unlinks the file and returns
null. An `unlinkSync` failure inside the try lands in the same catch,
whose own `unlinkSync` fails identically and the error propagates to the
caller — deletion failures here are NOT swallowed. -/
def uploadOnCloudinary (upload : String → Option String) (fsState : List String)
    (localFilePath : Option String) : List String × Except Err (Option String) :=
  if strTruthy localFilePath = false then (fsState, .ok none)
  else
    let path := localFilePath.getD ""
    match upload path with
    | some url =>
        match unlinkSync fsState path with
        | .ok fs2 => (fs2, .ok (some url))
        | .error _ =>
            match unlinkSync fsState path with
            | .ok fs2 => (fs2, .ok none)
            | .error e2 => (fsState, .error e2)
    | none =>
        match unlinkSync fsState path with
        | .ok fs2 => (fs2, .ok none)
        | .error e => (fsState, .error e)

/-! ## registerUser -/

/-- A POST /register request: the four form fields and the local temp
paths multer stored the uploaded files at (`req.files.avatar[0].path`,
`req.files.coverImage[0].path`), absent when no file field was sent. -/
structure RegisterRequest where
  fullName : Option String
  email : Option String
  username : Option String
  password : Option String
  avatarFile : Option String
  coverImageFile : Option String

/-- A successful register response: HTTP 201 with an ApiResponse whose own
statusCode the source sets to 200. -/
structure RegisterHttp where
  status : Nat
  body : ApiResponse SanitizedUser
deriving DecidableEq

/-- The validation `[fullName, email, username, password].some(f => f?.trim() === "")`:
true exactly when some field is present and empty after trimming — an
absent field gives `undefined?.trim()`, which is undefined, not `""`. -/
def requiredFieldEmpty (fields : List (Option String)) : Bool :=
  fields.any fun f =>
    match f with
    | some s => jsTrim s = ""
    | none => false

/-- `User.create({...})`: evaluates `username.toLowerCase()` (a TypeError
when username is undefined), then validates the required fields and
inserts the document, applying the schema transforms (trim and lowercase
on username and email, trim on fullName) and the pre-save hook that
bcrypt-hashes the password. Returns the new store and the new id. -/
def userCreate (db : List UserDoc) (fullName email username password : Option String)
    (avatarUrl : Option String) (coverUrl : Option String) :
    Except Err (List UserDoc × Nat) :=
  match username with
  | none => .error (.typeError "Cannot read properties of undefined (reading toLowerCase)")
  | some un =>
      match fullName, email, password with
      | some fn, some em, some pw =>
          let id := nextId db
          .ok (db ++
            [{ _id := id, username := jsTrim (jsToLower un),
               email := jsTrim (jsToLower em), fullName := jsTrim fn,
               password := bcryptHash pw, avatar := avatarUrl,
               coverImage := some (coverUrl.getD ""), refreshToken := none,
               watchHistory := [] }], id)
      | _, _, _ => .error (.mongooseValidation "Path is required")

/-- The try-block of `registerUser`: validate, reject duplicates, require
an avatar file, upload both images, create the user, reload it sanitized
and answer 201. The file-system state is threaded through and returned
alongside the outcome so the catch block and the asyncHandler wrapper can
act on it. -/
def registerUserBody (upload : String → Option String) (db : List UserDoc)
    (fsState : List String) (req : RegisterRequest) :
    List String × Except Err (List UserDoc × RegisterHttp) :=
  if requiredFieldEmpty [req.fullName, req.email, req.username, req.password] then
    (fsState, .error (.api 400 "All fields are required!"))
  else
    match findOneByEmailOrUsername db req.email req.username with
    | some _ => (fsState, .error (.api 409 "User with email or username already exists!"))
    | none =>
        let avatarLocalPath := req.avatarFile
        let coverImageLocalPath := req.coverImageFile
        if strTruthy avatarLocalPath = false then
          (fsState, .error (.api 400 "Avatar file is required!"))
        else
          match uploadOnCloudinary upload fsState avatarLocalPath with
          | (fs1, .error e) => (fs1, .error e)
          | (fs1, .ok avatar) =>
              match uploadOnCloudinary upload fs1 coverImageLocalPath with
              | (fs2, .error e) => (fs2, .error e)
              | (fs2, .ok coverImage) =>
                  if avatar = none then
                    (fs2, .error (.api 400 "Avatar file is required!"))
                  else
                    match userCreate db req.fullName req.email req.username
                        req.password avatar coverImage with
                    | .error e => (fs2, .error e)
                    | .ok (db', newId) =>
                        match findById db' newId with
                        | none =>
                            (fs2, .error (.api 500
                              "Something went wrong while registering the user"))
                        | some createdUser =>
                            (fs2, .ok (db',
                              { status := 201,
                                body := mkApiResponse 200 (sanitize createdUser)
                                  "User Registered Successfully!" }))

/-- The catch block's `deleteFile`: guarded by `fs.existsSync`, and its own
try/catch logs and ignores an unlink failure, so it never throws; in this
file-system model an unlink of an existing path cannot fail, so the
guarded delete is total. -/
def deleteFile (fsState : List String) (path : String) : List String :=
  if path ∈ fsState then fsState.erase path else fsState

/-- `registerUser` with its catch block: on any error, delete whichever
temp files the request carried (logged-and-ignored failures) and rethrow
the original error. -/
def registerUser (upload : String → Option String) (db : List UserDoc)
    (fsState : List String) (req : RegisterRequest) :
    List String × Except Err (List UserDoc × RegisterHttp) :=
  match registerUserBody upload db fsState req with
  | (fs1, .ok r) => (fs1, .ok r)
  | (fs1, .error e) =>
      let fs2 := match req.avatarFile with
        | some p => deleteFile fs1 p
        | none => fs1
      let fs3 := match req.coverImageFile with
        | some p => deleteFile fs2 p
        | none => fs2
      (fs3, .error e)

/-- The `finally` callback of asyncHandler (src/src/utils/asyncHandler.js):
an UNGUARDED `fs.unlinkSync` on each uploaded file's temp path. Returns
the new file-system state and the error the callback throws, if any — the
first failing unlink aborts the callback, and since the callback runs at
the end of the promise chain nothing catches what it throws (an unhandled
promise rejection). -/
def asyncHandlerFinally (avatarFile coverImageFile : Option String)
    (fsState : List String) : List String × Option Err :=
  match avatarFile with
  | some p =>
      match unlinkSync fsState p with
      | .ok fs2 =>
          match coverImageFile with
          | some q =>
              match unlinkSync fs2 q with
              | .ok fs3 => (fs3, none)
              | .error e => (fs2, some e)
          | none => (fs2, none)
      | .error e => (fsState, some e)
  | none =>
      match coverImageFile with
      | some q =>
          match unlinkSync fsState q with
          | .ok fs2 => (fs2, none)
          | .error e => (fsState, some e)
      | none => (fsState, none)

/-- What reaches the outside after asyncHandler wraps a handler: the final
file-system state, the outcome the HTTP layer saw (the response, or the
error handed to `next`), and any error the finally callback itself threw,
which nothing in the chain consumes. -/
structure WrappedRegister where
  fsAfter : List String
  outcome : Except Err (List UserDoc × RegisterHttp)
  unhandled : Option Err

/-- The full POST /register operation: `asyncHandler(registerUser)` —
handler (with its catch-block cleanup) first, then the finally
callback. -/
def registerOperation (upload : String → Option String) (db : List UserDoc)
    (fsState : List String) (req : RegisterRequest) : WrappedRegister :=
  match registerUser upload db fsState req with
  | (fs1, out) =>
      match asyncHandlerFinally req.avatarFile req.coverImageFile fs1 with
      | (fs2, unh) => { fsAfter := fs2, outcome := out, unhandled := unh }

/-! ## getUserChannelUserProfile -/

/-- One document of the subscriptions collection: `subscriber` follows
`channel`. -/
structure Subscription where
  subscriber : Nat
  channel : Nat
deriving DecidableEq

/-- One row of the aggregation's output after the `$project` stage. -/
structure ChannelProfile where
  fullName : String
  username : String
  email : String
  avatar : Option String
  coverImage : Option String
  subscribersCount : Nat
  channelsSubscribedToCount : Nat
  isSubscribed : Bool
deriving DecidableEq

/-- The `User.aggregate` pipeline: `$match` on the lower-cased username,
two `$lookup`s against subscriptions (by `channel` for subscribers, by
`subscriber` for subscribedTo), `$addFields` with the two counts and the
`$in` test of the requester's id against the joined `subscriber` fields,
then `$project`. -/
def aggregateChannel (db : List UserDoc) (subs : List Subscription)
    (requesterId : Nat) (uname : String) : List ChannelProfile :=
  (db.filter fun u => u.username = uname).map fun u =>
    let subscribers := subs.filter fun s => s.channel = u._id
    let subscribedTo := subs.filter fun s => s.subscriber = u._id
    { fullName := u.fullName, username := u.username, email := u.email,
      avatar := u.avatar, coverImage := u.coverImage,
      subscribersCount := subscribers.length,
      channelsSubscribedToCount := subscribedTo.length,
      isSubscribed := subscribers.any fun s => s.subscriber = requesterId }

/-- `getUserChannelUserProfile`: requires a non-blank username parameter,
runs the aggregation — and then tests `!channel?.lenght`. The property
`lenght` (a misspelling of `length`) does not exist on the result array,
so the test reads undefined, the guard is always true, and the handler
throws the 404 on every request, matching account or not; the 200 branch
below it is unreachable. -/
def getUserChannelUserProfile (db : List UserDoc) (subs : List Subscription)
    (requesterId : Nat) (username : Option String) :
    Except Err (ApiResponse ChannelProfile) :=
  match username with
  | none => .error (.api 400 "username is missing!")
  | some s =>
      if jsTrim s = "" then .error (.api 400 "username is missing!")
      else
        let channel := aggregateChannel db subs requesterId (jsToLower s)
        let lenght : Option Nat := none
        match lenght with
        | none => .error (.api 404 "Channel doesn't exist!")
        | some _ =>
            match channel with
            | [] => .error (.api 404 "Channel doesn't exist!")
            | c :: _ =>
                .ok (mkApiResponse 200 c "User channel fetched Succesfully!")

/-! ## Concrete fixtures the theorems are evaluated at -/

/-- A concrete environment: two distinct secrets, the clock at 10. -/
def cfgW : Config :=
  { accessTokenSecret := "access-secret", refreshTokenSecret := "refresh-secret",
    now := 10 }

/-- A registered account before any session state. -/
def aliceBase : UserDoc :=
  { _id := 1, username := "alice", email := "a@x.com", fullName := "Alice",
    password := bcryptHash "p1", avatar := some "http://img/av.png",
    coverImage := none, refreshToken := none, watchHistory := [] }

/-- The renewal token a rotation at time 5 stored on the account. -/
def storedRT : Token := generateRefreshToken aliceBase { cfgW with now := 5 }

/-- The renewal token issued at time 3 and superseded by `storedRT`: still
validly signed and unexpired, but no longer the stored one. -/
def oldRT : Token := generateRefreshToken aliceBase { cfgW with now := 3 }

/-- The account with `storedRT` persisted. -/
def aliceW : UserDoc := { aliceBase with refreshToken := some storedRT }

/-- A one-account store. -/
def dbW : List UserDoc := [aliceW]

/-- A second account whose stored renewal token is exactly the one a login
under `cfgW` would issue (the state right after that login). -/
def bobBase : UserDoc :=
  { _id := 2, username := "bob", email := "b@x.com", fullName := "Bob",
    password := bcryptHash "p2", avatar := none, coverImage := none,
    refreshToken := none, watchHistory := [] }

/-- Bob with the freshly issued renewal token stored. -/
def bobW : UserDoc := { bobBase with refreshToken := some (generateRefreshToken bobBase cfgW) }

/-- The store for the logout scenario. -/
def dbLogoutW : List UserDoc := [bobW]

/-- The cloudinary collaborator of the register scenarios: knows the one
temp file. -/
def uploadW : String → Option String :=
  fun p => if p = "/public/temp/av.png" then some "http://cdn/av.png" else none

/-- The file-system state of the register scenarios: the one temp file
multer wrote. -/
def fsW : List String := ["/public/temp/av.png"]

/-- A fully valid registration request. -/
def registerReqW : RegisterRequest :=
  { fullName := some "Carol C", email := some "c@x.com", username := some "Carol",
    password := some "pw3", avatarFile := some "/public/temp/av.png",
    coverImageFile := none }

/-- One subscription edge: account 2 follows account 1. -/
def subsW : List Subscription := [{ subscriber := 2, channel := 1 }]

/-- Abbreviation for the document `userCreate` inserts on a registration
with all four fields, an avatar url and no cover image. -/
def createdUser (db : List UserDoc) (fn em un pw url : String) : UserDoc :=
  { _id := nextId db, username := jsTrim (jsToLower un),
    email := jsTrim (jsToLower em), fullName := jsTrim fn,
    password := bcryptHash pw, avatar := some url, coverImage := some "",
    refreshToken := none, watchHistory := [] }

/-- The request of the logout/renewal scenario: presents the renewal token
that was stored on Bob before the logout. -/
def bobRefreshReqW : RefreshRequest :=
  { cookieRefreshToken := some (generateRefreshToken bobW cfgW),
    bodyRefreshToken := none }

/-- The gate request of the verifyJWT scenario: a freshly issued access
token in the cookie, no Authorization header. -/
def gateReqW : AuthRequest :=
  { cookieAccessToken := some (generateAccessToken aliceW cfgW),
    headerAuthorization := none }

/-- The login request of the login scenario. -/
def loginReqW : LoginRequest :=
  { email := some "a@x.com", username := none, password := some "p1" }

/-! ## Helper lemmas about the store -/

/-- `findById` after a conditional in-place update of the document with the
looked-up id: the lookup returns the updated document, provided the update
keeps the id and the id was present. -/
theorem findById_mapUpdate (f : UserDoc → UserDoc) (id : Nat)
    (hf : ∀ v : UserDoc, v._id = id → (f v)._id = id) (db : List UserDoc) :
    findById (db.map fun v => if v._id = id then f v else v) id =
      (findById db id).map f := by
  induction db with
  | nil => simp [findById]
  | cons v vs ih =>
      by_cases h : v._id = id
      · simp [findById, List.find?, h, hf v h] at *
      · simp [findById, List.find?, h] at *
        exact ih

/-- Every id in the store is below `nextId`. -/
theorem id_lt_nextId (db : List UserDoc) : ∀ u ∈ db, u._id < nextId db := by
  have hle : ∀ u ∈ db, u._id ≤ db.foldr (fun u acc => max u._id acc) 0 := by
    induction db with
    | nil => simp
    | cons v vs ih =>
        intro u hu
        rcases List.mem_cons.mp hu with h | h
        · subst h; exact le_max_left _ _
        · exact le_trans (ih u h) (le_max_right _ _)
  intro u hu
  exact Nat.lt_succ_of_le (hle u hu)

/-- Looking a fresh id up in the store extended by the one document that
carries it finds that document. -/
theorem findById_append_fresh (db : List UserDoc) (newU : UserDoc) (id : Nat)
    (hfresh : ∀ u ∈ db, u._id ≠ id) (hnew : newU._id = id) :
    findById (db ++ [newU]) id = some newU := by
  induction db with
  | nil => simp [findById, List.find?, hnew]
  | cons v vs ih =>
      have hv : v._id ≠ id := hfresh v (List.mem_cons_self _ _)
      have ih' := ih fun u hu => hfresh u (List.mem_cons_of_mem _ hu)
      simpa [findById, List.find?, hv] using ih'

/-! ## Claims -/

/-- C1: the claim says a renewal request whose valid token differs from the
stored one fails with TokenReused (HTTP 401). In the source the handler's
parameter is named `rq` while its body reads the unbound `req`, so every
renewal request — this one included — raises a ReferenceError that
propagates outside any catch (surfacing as a 500, not a 401 ApiError),
and the TokenReused comparison is never reached. The second conjunct
shows the comparison itself, under the intended `req` binding, would
behave exactly as claimed at this input. -/
theorem refresh_reuse_check_unreachable :
    refreshAccessToken cfgW dbW
        { cookieRefreshToken := some oldRT, bodyRefreshToken := none }
      = .error (.referenceError "req")
    ∧ refreshAccessTokenBody cfgW dbW
        { cookieRefreshToken := some oldRT, bodyRefreshToken := none }
      = .error (.api 401 "Refresh token expired or used!") :=
  ⟨rfl, rfl⟩

/-- C2: the claim says a renewal passing all checks mints both tokens,
persists the new renewal token and returns both to the client. The code
raises a ReferenceError on every renewal request (parameter `rq`, body
reads `req`); and even under the intended binding the success branch
destructures `newRefreshToken` from a helper returning
`{accessToken, refreshToken}`, so the persisted fresh renewal token is
returned as undefined in both the cookie and the body. -/
theorem refresh_success_path_broken :
    refreshAccessToken cfgW dbW
        { cookieRefreshToken := some storedRT, bodyRefreshToken := none }
      = .error (.referenceError "req")
    ∧ refreshAccessTokenBody cfgW dbW
        { cookieRefreshToken := some storedRT, bodyRefreshToken := none }
      = .ok (saveUser dbW { aliceW with refreshToken := some (generateRefreshToken aliceW cfgW) },
          { status := 200,
            cookies := [⟨"accessToken", some (generateAccessToken aliceW cfgW), true, true⟩,
                        ⟨"refreshToken", none, true, true⟩],
            body := mkApiResponse 200
              { accessToken := some (generateAccessToken aliceW cfgW),
                refreshToken := none }
              "Access token refreshed!" }) :=
  ⟨rfl, rfl⟩

/-- C6: the claim says a wrong password fails with InvalidCredentials as
HTTP 401. The source runs `throw ApiError(401, ...)` without `new`;
invoking the ApiError class without `new` raises a TypeError, which
propagates as a plain server error (500), not a 401 ApiError. No tokens
are minted or persisted: the evaluation errors before
generateAccessAndRefreshTokens runs and returns no updated store. -/
theorem login_wrong_password_typeError :
    loginUser cfgW dbW
        { email := some "a@x.com", username := none, password := some "wrong" }
      = .error (.typeError "Class constructor ApiError cannot be invoked without new") :=
  rfl

/-- C9: the claim says the channel-profile operation 404s exactly when no
account matches and otherwise returns the aggregated profile with 200.
The source tests `!channel?.lenght` — `lenght` misspells `length`, the
array has no such property, the test reads undefined and is always true —
so the handler throws the 404 even here, where the aggregation finds the
matching account and computes exactly the claimed profile (1 subscriber,
0 subscribed-to, requester 2 subscribed). -/
theorem channel_profile_always_404 :
    getUserChannelUserProfile dbW subsW 2 (some "alice")
      = .error (.api 404 "Channel doesn't exist!")
    ∧ aggregateChannel dbW subsW 2 "alice"
      = [{ fullName := "Alice", username := "alice", email := "a@x.com",
           avatar := some "http://img/av.png", coverImage := none,
           subscribersCount := 1, channelsSubscribedToCount := 0,
           isSubscribed := true }] :=
  ⟨rfl, rfl⟩

/-- C10: the registration validation
`[fullName, email, username, password].some(f => f?.trim() === "")`
rejects exactly the fields that are present and empty after trimming; a
field that is entirely absent yields `undefined?.trim() === ""`, which is
false, so the request passes the check and proceeds — concretely, a
request with no fullName at all but a duplicate email reaches the
duplicate-account lookup and fails with 409, not with the 400
ValidationError (the catch block then deletes the uploaded temp file). -/
theorem register_validation_absent_field_passes :
    (∀ fields : List (Option String),
      requiredFieldEmpty fields = true ↔ ∃ s, some s ∈ fields ∧ jsTrim s = "")
    ∧ registerUser uploadW [aliceW] fsW
        { fullName := none, email := some "a@x.com", username := some "alice",
          password := some "p", avatarFile := some "/public/temp/av.png",
          coverImageFile := none }
      = ([], .error (.api 409 "User with email or username already exists!")) := by
  constructor
  · intro fields
    simp only [requiredFieldEmpty, List.any_eq_true]
    constructor
    · rintro ⟨f, hf, hp⟩
      cases f with
      | some s => exact ⟨s, hf, by simpa using hp⟩
      | none => simp at hp
    · rintro ⟨s, hs, hts⟩
      exact ⟨some s, hs, by simpa using hts⟩
  · rfl

/-- C3: a login whose identifier resolves to an account and whose password
matches the stored hash mints a fresh access and renewal token, persists
the renewal token on the account overwriting whatever was stored before
(the update sets the field unconditionally), and answers 200 with both
tokens in cookies and body together with the account record projected
through `sanitize`, which has no password or renewal-token field. -/
theorem login_success_issues_and_persists
    (cfg : Config) (db : List UserDoc) (req : LoginRequest) (user : UserDoc) (pw : String)
    (hguard : strTruthy req.email = true ∨ strTruthy req.username = true)
    (hfind : findOneByEmailOrUsername db req.email req.username = some user)
    (hid : findById db user._id = some user)
    (hpw : req.password = some pw)
    (hok : isPasswordCorrect (some pw) user.password = true) :
    loginUser cfg db req =
      .ok (saveUser db { user with refreshToken := some (generateRefreshToken user cfg) },
        { status := 200,
          cookies :=
            [⟨"accessToken", some (generateAccessToken user cfg), true, true⟩,
             ⟨"refreshToken", some (generateRefreshToken user cfg), true, true⟩],
          body := mkApiResponse 200
            { user := some (sanitize
                { user with refreshToken := some (generateRefreshToken user cfg) }),
              accessToken := generateAccessToken user cfg,
              refreshToken := generateRefreshToken user cfg }
            "User logged in Successfully!" })
    ∧ findById
        (saveUser db { user with refreshToken := some (generateRefreshToken user cfg) })
        user._id
      = some { user with refreshToken := some (generateRefreshToken user cfg) } := by
  have hpers : findById
      (saveUser db { user with refreshToken := some (generateRefreshToken user cfg) })
      user._id
      = some { user with refreshToken := some (generateRefreshToken user cfg) } := by
    have h := findById_mapUpdate
      (fun _ => { user with refreshToken := some (generateRefreshToken user cfg) })
      user._id (fun _ _ => rfl) db
    rw [hid] at h
    exact h
  refine ⟨?_, hpers⟩
  rcases hguard with h | h <;>
    simp [loginUser, h, hfind, hpw, hok, generateAccessAndRefreshTokens, hid, hpers]

/-- C3 witness: the login scenario at the concrete fixtures. -/
theorem login_success_issues_and_persists_witness :
    loginUser cfgW dbW loginReqW =
      .ok (saveUser dbW { aliceW with refreshToken := some (generateRefreshToken aliceW cfgW) },
        { status := 200,
          cookies :=
            [⟨"accessToken", some (generateAccessToken aliceW cfgW), true, true⟩,
             ⟨"refreshToken", some (generateRefreshToken aliceW cfgW), true, true⟩],
          body := mkApiResponse 200
            { user := some (sanitize
                { aliceW with refreshToken := some (generateRefreshToken aliceW cfgW) }),
              accessToken := generateAccessToken aliceW cfgW,
              refreshToken := generateRefreshToken aliceW cfgW }
            "User logged in Successfully!" })
    ∧ findById
        (saveUser dbW { aliceW with refreshToken := some (generateRefreshToken aliceW cfgW) })
        1
      = some { aliceW with refreshToken := some (generateRefreshToken aliceW cfgW) } :=
  login_success_issues_and_persists cfgW dbW loginReqW aliceW "p1"
    (Or.inl rfl) rfl rfl rfl rfl

/-- C4: after logout the stored renewal token of the account is cleared
(`$unset` leaves the field absent), and a subsequent renewal attempt
presenting the previously valid renewal token fails: the handler as
written fails on every request with the `req` ReferenceError, and even
the intended body rejects the attempt — the stored `none` can never equal
the presented token, so the comparison fails with the 401
"Refresh token expired or used!" error. -/
theorem logout_clears_token_blocks_renewal
    (cfg : Config) (db : List UserDoc) (user : UserDoc)
    (hid : findById db user._id = some user)
    (htok : user.refreshToken = some (generateRefreshToken user cfg)) :
    findById (logoutUser db user._id).1 user._id
      = some { user with refreshToken := none }
    ∧ (∀ req, refreshAccessToken cfg (logoutUser db user._id).1 req
        = .error (.referenceError "req"))
    ∧ refreshAccessTokenBody cfg (logoutUser db user._id).1
        { cookieRefreshToken := some (generateRefreshToken user cfg),
          bodyRefreshToken := none }
      = .error (.api 401 "Refresh token expired or used!") := by
  have hunset : findById (unsetRefreshToken db user._id) user._id
      = some { user with refreshToken := none } := by
    have h := findById_mapUpdate (fun v => { v with refreshToken := none })
      user._id (fun v hv => hv) db
    rw [hid] at h
    exact h
  refine ⟨hunset, fun req => rfl, ?_⟩
  simp [refreshAccessTokenBody, jsGetToken, jsOrToken, Token.truthy,
    jwtVerify, generateRefreshToken, logoutUser, hunset]

/-- C4 witness: the logout/renewal scenario at the concrete fixtures. -/
theorem logout_clears_token_blocks_renewal_witness :
    findById (logoutUser dbLogoutW 2).1 2 = some { bobW with refreshToken := none }
    ∧ refreshAccessToken cfgW (logoutUser dbLogoutW 2).1 bobRefreshReqW
      = .error (.referenceError "req")
    ∧ refreshAccessTokenBody cfgW (logoutUser dbLogoutW 2).1 bobRefreshReqW
      = .error (.api 401 "Refresh token expired or used!") := by
  have h := logout_clears_token_blocks_renewal cfgW dbLogoutW bobW rfl rfl
  exact ⟨h.1, h.2.1 bobRefreshReqW, h.2.2⟩

/-- C5: the Request Gate's contract — the cookie-borne token is preferred
over the `Authorization` header's second word whenever the cookie is a
truthy string; a request carrying no token at all fails 401; a token the
verifier rejects (bad signature, expired, malformed) fails 401; a
verified token whose embedded id matches no account fails 401; and
otherwise the gate attaches the account stripped of the password and
renewal-token fields (the `sanitize` projection) and proceeds. -/
theorem verifyJWT_contract (cfg : Config) (db : List UserDoc) (req : AuthRequest) :
    (∀ (t : Token) (h : Option AuthHeader), t.truthy = true →
      extractAccessToken { cookieAccessToken := some t, headerAuthorization := h }
        = some t)
    ∧ (extractAccessToken req = none →
        verifyJWT cfg db req = .error (.api 401 "Unauthorized Request!"))
    ∧ (∀ t, extractAccessToken req = some t →
        jwtVerify t cfg.accessTokenSecret = none →
        verifyJWT cfg db req = .error (.api 401 "jwt verification error"))
    ∧ (∀ t p, extractAccessToken req = some t →
        jwtVerify t cfg.accessTokenSecret = some p →
        findById db p._id = none →
        verifyJWT cfg db req = .error (.api 401 "Invalid Access Token!"))
    ∧ (∀ t p u, extractAccessToken req = some t →
        jwtVerify t cfg.accessTokenSecret = some p →
        findById db p._id = some u →
        verifyJWT cfg db req = .ok (sanitize u)) := by
  refine ⟨?_, ?_, ?_, ?_, ?_⟩
  · intro t hh ht
    simp [extractAccessToken, jsGetToken, jsOrToken, ht]
  · intro h0
    simp [verifyJWT, h0]
  · intro t h1 h2
    simp [verifyJWT, h1, h2]
  · intro t p h1 h2 h3
    simp [verifyJWT, h1, h2, h3]
  · intro t p u h1 h2 h3
    simp [verifyJWT, h1, h2, h3]

/-- C5 witness: the gate accepts Alice's fresh access token from the
cookie and attaches her sanitized record. -/
theorem verifyJWT_contract_witness :
    verifyJWT cfgW dbW gateReqW = .ok (sanitize aliceW) :=
  (verifyJWT_contract cfgW dbW gateReqW).2.2.2.2
    (generateAccessToken aliceW cfgW)
    { _id := 1, email := some "a@x.com", username := some "alice",
      fullName := some "Alice", iat := 10 }
    aliceW rfl rfl rfl

/-- Evaluation of registerUser's try-block on a fully valid registration:
validation passes, no duplicate, the avatar file exists and uploads, no
cover image. The temp file is deleted by uploadOnCloudinary and the
created document is stored and answered sanitized. -/
theorem registerUserBody_success
    (upload : String → Option String) (db : List UserDoc) (fsState : List String)
    (req : RegisterRequest) (fn em un pw path url : String)
    (hfn : req.fullName = some fn) (hem : req.email = some em)
    (hun : req.username = some un) (hpw : req.password = some pw)
    (hv : requiredFieldEmpty [req.fullName, req.email, req.username, req.password] = false)
    (hdup : findOneByEmailOrUsername db req.email req.username = none)
    (hav : req.avatarFile = some path) (hpath : path ≠ "")
    (hup : upload path = some url) (hmem : path ∈ fsState)
    (hcov : req.coverImageFile = none) :
    registerUserBody upload db fsState req =
      (fsState.erase path,
       .ok (db ++ [createdUser db fn em un pw url],
            { status := 201,
              body := mkApiResponse 200 (sanitize (createdUser db fn em un pw url))
                "User Registered Successfully!" })) := by
  have hfresh : ∀ u ∈ db, u._id ≠ nextId db :=
    fun u hu => Nat.ne_of_lt (id_lt_nextId db u hu)
  have happend := findById_append_fresh db (createdUser db fn em un pw url)
    (nextId db) hfresh rfl
  simp only [createdUser] at happend
  rw [hfn, hem, hun, hpw] at hv
  rw [hem, hun] at hdup
  simp [registerUserBody, hv, hdup, hav, hcov, strTruthy, hpath,
    uploadOnCloudinary, hup, unlinkSync, hmem, userCreate, hfn, hem, hun, hpw,
    createdUser, happend]

/-- C7: every valid registration answers 201 with the created account
projected through `sanitize` — a record type that has no password and no
renewal-token field — while the stored document carries the bcrypt hash of
the supplied password, never the plaintext, and no renewal token. -/
theorem register_returns_sanitized_and_hashed
    (upload : String → Option String) (db : List UserDoc) (fsState : List String)
    (req : RegisterRequest) (fn em un pw path url : String)
    (hfn : req.fullName = some fn) (hem : req.email = some em)
    (hun : req.username = some un) (hpw : req.password = some pw)
    (hv : requiredFieldEmpty [req.fullName, req.email, req.username, req.password] = false)
    (hdup : findOneByEmailOrUsername db req.email req.username = none)
    (hav : req.avatarFile = some path) (hpath : path ≠ "")
    (hup : upload path = some url) (hmem : path ∈ fsState)
    (hcov : req.coverImageFile = none) :
    ∃ u : UserDoc,
      registerUser upload db fsState req =
        (fsState.erase path,
         .ok (db ++ [u],
              { status := 201,
                body := mkApiResponse 200 (sanitize u)
                  "User Registered Successfully!" }))
      ∧ findById (db ++ [u]) u._id = some u
      ∧ u.password = bcryptHash pw
      ∧ u.password ≠ pw
      ∧ u.refreshToken = none := by
  have hbody := registerUserBody_success upload db fsState req fn em un pw path url
    hfn hem hun hpw hv hdup hav hpath hup hmem hcov
  have hfresh : ∀ u ∈ db, u._id ≠ nextId db :=
    fun u hu => Nat.ne_of_lt (id_lt_nextId db u hu)
  refine ⟨createdUser db fn em un pw url, ?_, ?_, rfl, ?_, rfl⟩
  · simp [registerUser, hbody]
  · exact findById_append_fresh db _ (nextId db) hfresh rfl
  · intro hcontra
    have h2 := congrArg String.length hcontra
    simp only [createdUser, bcryptHash] at h2
    rw [String.length_append] at h2
    have h7 : ("$2b$10$" : String).length = 7 := rfl
    omega

/-- C7 witness: Carol's registration at the concrete fixtures. -/
theorem register_returns_sanitized_and_hashed_witness :
    ∃ u : UserDoc,
      registerUser uploadW [] fsW registerReqW =
        (fsW.erase "/public/temp/av.png",
         .ok ([] ++ [u],
              { status := 201,
                body := mkApiResponse 200 (sanitize u)
                  "User Registered Successfully!" }))
      ∧ findById ([] ++ [u]) u._id = some u
      ∧ u.password = bcryptHash "pw3"
      ∧ u.password ≠ "pw3"
      ∧ u.refreshToken = none :=
  register_returns_sanitized_and_hashed uploadW [] fsW registerReqW
    "Carol C" "c@x.com" "Carol" "pw3" "/public/temp/av.png" "http://cdn/av.png"
    rfl rfl rfl rfl rfl rfl rfl (by decide) rfl (by decide) rfl

/-- C8 counterexample: at a fully valid registration (file present, upload
succeeds, handler answers 201) the asyncHandler finally block unlinks the
temp file that uploadOnCloudinary already deleted; that unlink raises an
error nothing in the chain catches or logs — the claim that a failure of
the deletion itself is logged and ignored rather than propagated is false
on this path. The third conjunct shows the companion failure inside
uploadOnCloudinary: with the file absent, the post-upload unlink throws
and the error propagates out, turning a completed upload into a failed
operation. -/
theorem cleanup_failure_propagates_counterexample :
    (registerOperation uploadW [] fsW registerReqW).unhandled
      = some (.ioError "/public/temp/av.png")
    ∧ (∃ r, (registerOperation uploadW [] fsW registerReqW).outcome = .ok r)
    ∧ uploadOnCloudinary uploadW [] (some "/public/temp/av.png")
      = ([], .error (.ioError "/public/temp/av.png")) :=
  ⟨rfl, ⟨_, rfl⟩, rfl⟩

/-- C8 amended: on every code path of a register operation that created a
temp file the file ends up deleted — on the success path by
uploadOnCloudinary, on a handler-failure path by the catch block's
existence-guarded deleteFile, whose own failures are logged and ignored —
but deletion failures are NOT ignored everywhere: the asyncHandler
finally block unlinks the already-deleted file unguarded, so on both
paths its unlink raises an error that propagates as an unhandled
rejection instead of being logged and ignored (the primary outcome — the
201 response, or the original error — is already settled and unchanged
by it). -/
theorem temp_cleanup_amended
    (upload : String → Option String) (db : List UserDoc) (fsState : List String)
    (req : RegisterRequest) (fn em un pw path url : String)
    (hfn : req.fullName = some fn) (hem : req.email = some em)
    (hun : req.username = some un) (hpw : req.password = some pw)
    (hv : requiredFieldEmpty [req.fullName, req.email, req.username, req.password] = false)
    (hdup : findOneByEmailOrUsername db req.email req.username = none)
    (hav : req.avatarFile = some path) (hpath : path ≠ "")
    (hup : upload path = some url) (hmem : path ∈ fsState)
    (hcov : req.coverImageFile = none)
    (hnotdup : path ∉ fsState.erase path) :
    ((registerOperation upload db fsState req).fsAfter = fsState.erase path
     ∧ (∃ r, (registerOperation upload db fsState req).outcome = .ok r)
     ∧ (registerOperation upload db fsState req).unhandled = some (.ioError path))
    ∧ ((registerOperation upload db fsState { req with fullName := some "" }).fsAfter
        = fsState.erase path
      ∧ (registerOperation upload db fsState { req with fullName := some "" }).outcome
        = .error (.api 400 "All fields are required!")
      ∧ (registerOperation upload db fsState { req with fullName := some "" }).unhandled
        = some (.ioError path)) := by
  have hbody := registerUserBody_success upload db fsState req fn em un pw path url
    hfn hem hun hpw hv hdup hav hpath hup hmem hcov
  constructor
  · refine ⟨?_,
      ⟨(db ++ [createdUser db fn em un pw url],
        { status := 201,
          body := mkApiResponse 200 (sanitize (createdUser db fn em un pw url))
            "User Registered Successfully!" }), ?_⟩, ?_⟩ <;>
      simp [registerOperation, registerUser, hbody, asyncHandlerFinally,
        hav, hcov, unlinkSync, hnotdup]
  · have hbad : requiredFieldEmpty
        [some "", req.email, req.username, req.password] = true := by
      simp [requiredFieldEmpty]
      exact Or.inl rfl
    have hbadbody : registerUserBody upload db fsState { req with fullName := some "" }
        = (fsState, .error (.api 400 "All fields are required!")) := by
      simp [registerUserBody, hbad]
    rw [hav, hcov] at hbadbody
    refine ⟨?_, ?_, ?_⟩ <;>
      simp [registerOperation, registerUser, hbadbody, deleteFile, hmem,
        hav, hcov, asyncHandlerFinally, unlinkSync, hnotdup]

/-- C8 amended witness: both paths at the concrete fixtures. -/
theorem temp_cleanup_amended_witness :
    ((registerOperation uploadW [] fsW registerReqW).fsAfter
        = fsW.erase "/public/temp/av.png"
     ∧ (∃ r, (registerOperation uploadW [] fsW registerReqW).outcome = .ok r)
     ∧ (registerOperation uploadW [] fsW registerReqW).unhandled
        = some (.ioError "/public/temp/av.png"))
    ∧ ((registerOperation uploadW [] fsW { registerReqW with fullName := some "" }).fsAfter
        = fsW.erase "/public/temp/av.png"
      ∧ (registerOperation uploadW [] fsW { registerReqW with fullName := some "" }).outcome
        = .error (.api 400 "All fields are required!")
      ∧ (registerOperation uploadW [] fsW { registerReqW with fullName := some "" }).unhandled
        = some (.ioError "/public/temp/av.png")) :=
  temp_cleanup_amended uploadW [] fsW registerReqW
    "Carol C" "c@x.com" "Carol" "pw3" "/public/temp/av.png" "http://cdn/av.png"
    rfl rfl rfl rfl rfl rfl rfl (by decide) rfl (by decide) rfl (by decide)
